import Mathlib

/-
Shallow embedding of src/DeltaLevel.py (delta-printer bed calibration).

Modelling conventions:
* Python floats are modelled as rationals (ℚ); the program performs only
  field arithmetic (+, -, *, /, abs) on its measurements, and the claims
  under study are about the exact formulas the code computes.
* The Python dict `data` built in fixDeltaCalibration is the structure
  `AggData`; keys that a pass may never write (`data['M666']`,
  `data['M665']`) are `Option` fields, and reading an absent key raises
  `PyError.keyError`, matching the dict KeyError.
* Device I/O is modelled by value: a reply line is a `Line`, the
  classification of a raw device line in the order the source tests its
  regexes (the completion marker is tested first by every consumer);
  a command sent with printer.send_now is a `Cmd` carrying the exact
  numeric payload computed by the code (the source formats it with 4
  decimals for transmission; the claims concern the computed values).
* A blocking wait with no further device line is modelled by `Option`:
  `none` means the loop would block forever.
-/

namespace DeltaLevel

/-- TOLERANCE_MM = 0.035 from the source configuration block. -/
def TOLERANCE_MM : ℚ := 35 / 1000

/-- DEFAULT_DELTA_RADIUS = 61.7 from the source configuration block. -/
def DEFAULT_DELTA_RADIUS : ℚ := 617 / 10

/-- The three candidate reference axes; the source stores them as the
strings z_avg, x_avg, y_avg in status. -/
inductive Axis where
  | z
  | x
  | y
deriving DecidableEq, Repr

/-- One datapoint of fixDeltaCalibration: the 8 raw probe readings of one
probing run, as stored in data.datapoints. The source also stores
per-datapoint averages (keys z_avg and so on inside the datapoint) but no
code ever reads them, so they are omitted. -/
structure Datapoint where
  z1 : ℚ
  z2 : ℚ
  x1 : ℚ
  x2 : ℚ
  y1 : ℚ
  y2 : ℚ
  c1 : ℚ
  c2 : ℚ
deriving DecidableEq, Repr

/-- The endstop-trim triple parsed from an M666 report line. -/
structure Trim666 where
  x : ℚ
  y : ℚ
  z : ℚ
deriving DecidableEq, Repr

/-- The rod-length / radius / scale triple parsed from an M665 report line. -/
structure Rod665 where
  l : ℚ
  r : ℚ
  s : ℚ
deriving DecidableEq, Repr

/-- The mutable dict `data` of fixDeltaCalibration. The numeric keys are
initialised to 0.0 by the source; M666 and M665 are absent until
queryPrinter writes them. -/
structure AggData where
  datapoints : List Datapoint
  high_point : ℚ
  c_offset : ℚ
  z_avg : ℚ
  z_var : ℚ
  x_avg : ℚ
  x_var : ℚ
  y_avg : ℚ
  y_var : ℚ
  c_avg : ℚ
  c_var : ℚ
  m666 : Option Trim666
  m665 : Option Rod665
deriving DecidableEq, Repr

/-- The fresh `data` dict created at the top of each iteration of the
probing loop in fixDeltaCalibration. -/
def freshAggData : AggData :=
  { datapoints := []
  , high_point := 0
  , c_offset := 0
  , z_avg := 0
  , z_var := 0
  , x_avg := 0
  , x_var := 0
  , y_avg := 0
  , y_var := 0
  , c_avg := 0
  , c_var := 0
  , m666 := none
  , m665 := none }

/-- The `status` dict of sendCommands: converged flag plus the sticky
reference-axis choice (None until the first computeVariance call). -/
structure Status where
  converged : Bool
  ref_axis : Option Axis
deriving DecidableEq, Repr

/-- The initial status = converged False, ref_axis None. -/
def freshStatus : Status :=
  { converged := false, ref_axis := none }

/-- Read the axis average of data selected by the given axis name, the
model of the dict lookup data[status.ref_axis]. -/
def axisAvg (data : AggData) : Axis → ℚ
  | .z => data.z_avg
  | .x => data.x_avg
  | .y => data.y_avg

/-- Priority of an axis in the tie-break order of the reference-axis
selection: Z beats X beats Y under the source's strict comparisons. -/
def axisRank : Axis → Nat
  | .z => 0
  | .x => 1
  | .y => 2

/-- The reference-axis selection of computeVariance lines 185-189:
start from z, move to x if x_avg is strictly greater than the current
choice's average, then to y likewise. -/
def refSelect (data : AggData) : Axis :=
  let r0 : Axis := .z
  let r1 : Axis := if data.x_avg > axisAvg data r0 then .x else r0
  let r2 : Axis := if data.y_avg > axisAvg data r1 then .y else r1
  r2

/-- Sum of the raw z readings of all datapoints (first accumulation loop
of computeVariance). -/
def sumZ (l : List Datapoint) : ℚ :=
  l.foldl (fun t d => t + d.z1 + d.z2) 0

/-- Sum of the raw x readings of all datapoints. -/
def sumX (l : List Datapoint) : ℚ :=
  l.foldl (fun t d => t + d.x1 + d.x2) 0

/-- Sum of the raw y readings of all datapoints. -/
def sumY (l : List Datapoint) : ℚ :=
  l.foldl (fun t d => t + d.y1 + d.y2) 0

/-- Sum of the raw c readings of all datapoints. -/
def sumC (l : List Datapoint) : ℚ :=
  l.foldl (fun t d => t + d.c1 + d.c2) 0

/-- Sum of squared deviations of the z readings from the given mean
(second accumulation loop of computeVariance). -/
def sumSqZ (l : List Datapoint) (avg : ℚ) : ℚ :=
  l.foldl (fun t d => t + (d.z1 - avg) ^ 2 + (d.z2 - avg) ^ 2) 0

/-- Sum of squared deviations of the x readings from the given mean. -/
def sumSqX (l : List Datapoint) (avg : ℚ) : ℚ :=
  l.foldl (fun t d => t + (d.x1 - avg) ^ 2 + (d.x2 - avg) ^ 2) 0

/-- Sum of squared deviations of the y readings from the given mean. -/
def sumSqY (l : List Datapoint) (avg : ℚ) : ℚ :=
  l.foldl (fun t d => t + (d.y1 - avg) ^ 2 + (d.y2 - avg) ^ 2) 0

/-- Sum of squared deviations of the c readings from the given mean. -/
def sumSqC (l : List Datapoint) (avg : ℚ) : ℚ :=
  l.foldl (fun t d => t + (d.c1 - avg) ^ 2 + (d.c2 - avg) ^ 2) 0

/-- computeVariance (source lines 158-215): per-axis means over
dp_count = 2 * number of datapoints, one-shot reference-axis selection,
high_point and c_offset, then per-axis population variances over the
same dp_count. The program only calls it with a nonempty datapoints
list, so dp_count is never zero in any reachable call. -/
def computeVariance (data : AggData) (status : Status) : AggData × Status :=
  let dp_count : ℚ := (data.datapoints.length : ℚ) * 2
  let d1 : AggData :=
    { data with
      z_avg := sumZ data.datapoints / dp_count
      x_avg := sumX data.datapoints / dp_count
      y_avg := sumY data.datapoints / dp_count
      c_avg := sumC data.datapoints / dp_count }
  let status1 : Status :=
    if status.ref_axis = none then
      { status with ref_axis := some (refSelect d1) }
    else
      status
  let ref : Axis := status1.ref_axis.getD .z
  let d2 : AggData := { d1 with high_point := axisAvg d1 ref }
  let d3 : AggData := { d2 with c_offset := d2.c_avg - d2.high_point }
  let d4 : AggData :=
    { d3 with
      z_var := sumSqZ d3.datapoints d3.z_avg / dp_count
      x_var := sumSqX d3.datapoints d3.x_avg / dp_count
      y_var := sumSqY d3.datapoints d3.y_avg / dp_count
      c_var := sumSqC d3.datapoints d3.c_avg / dp_count }
  (d4, status1)

/-- A command sent to the printer, carrying the exact computed payload. -/
inductive Cmd where
  | home
  | autolevel
  | setTrim (z x y : ℚ)
  | setRadius (r : ℚ)
  | query
deriving DecidableEq, Repr

/-- A Python exception raised by the modelled code. -/
inductive PyError where
  | nameError (n : String)
  | keyError (k : String)
  | exception (msg : String)
deriving DecidableEq, Repr

/-- adjustOffsets (source lines 251-263): per-axis offsets
axis_avg - high_point added to the current M666 trims, sent as one M666
command; reading the absent M666 key raises KeyError. -/
def adjustOffsets (data : AggData) : Except PyError Cmd :=
  let z_offset := data.z_avg - data.high_point
  let x_offset := data.x_avg - data.high_point
  let y_offset := data.y_avg - data.high_point
  match data.m666 with
  | none => .error (.keyError "M666")
  | some t => .ok (.setTrim (t.z + z_offset) (t.x + x_offset) (t.y + y_offset))

/-- adjustDeltaRadius (source lines 266-272): one M665 command with
R = current R - c_offset * 2; reading the absent M665 key raises
KeyError. -/
def adjustDeltaRadius (data : AggData) : Except PyError Cmd :=
  match data.m665 with
  | none => .error (.keyError "M665")
  | some m => .ok (.setRadius (m.r - data.c_offset * 2))

/-- runAdjustments (source lines 226-248): flag adjust_endstops when any
axis average deviates from high_point by strictly more than TOLERANCE_MM;
if flagged, send only the endstop correction and return False; otherwise
check c_offset and send only the radius correction and return False;
otherwise return True. The returned list holds the corrective commands
sent during the call. -/
def runAdjustments (data : AggData) : Except PyError (Bool × List Cmd) :=
  let adjust_endstops : Bool :=
    decide (|data.high_point - data.z_avg| > TOLERANCE_MM) ||
    decide (|data.high_point - data.x_avg| > TOLERANCE_MM) ||
    decide (|data.high_point - data.y_avg| > TOLERANCE_MM)
  if adjust_endstops then
    match adjustOffsets data with
    | .error e => .error e
    | .ok c => .ok (false, [c])
  else if |data.c_offset| > TOLERANCE_MM then
    match adjustDeltaRadius data with
    | .error e => .error e
    | .ok c => .ok (false, [c])
  else
    .ok (true, [])

/-- A decoded device reply line, classified in the order the source tests
its patterns (the completion marker regex is searched first by every
consumer, then the consumer's own report regexes; a line matching no
pattern is `other`). A bed line carries the Z field (group 3 of
G29_REGEX), the only group the code converts; the M666 and M665 lines
carry their three parsed float groups. -/
inductive Line where
  | complete
  | bed (z : ℚ)
  | m666r (x y z : ℚ)
  | m665r (l r s : ℚ)
  | other
deriving DecidableEq, Repr

/-- The reply loop of run_autolevel (source lines 121-136): up to 13
waits; on the completion marker return the collected results at once; on
a bed coordinate report append its Z float; ignore anything else. The
result pairs the returned list with the number of reply lines consumed;
`none` models blocking forever on a wait with no further line. -/
def autolevelLoop : Nat → List Line → List ℚ → Option (List ℚ × Nat)
  | 0, _, results => some (results, 0)
  | _ + 1, [], _ => none
  | fuel + 1, l :: rest, results =>
    match l with
    | .complete => some (results, 1)
    | .bed z => (autolevelLoop fuel rest (results ++ [z])).map fun p => (p.1, p.2 + 1)
    | _ => (autolevelLoop fuel rest results).map fun p => (p.1, p.2 + 1)

/-- run_autolevel (source lines 115-136): send G29 and run the reply
loop with 13 iterations, starting from an empty result list. -/
def run_autolevel (lines : List Line) : Option (List ℚ × Nat) :=
  autolevelLoop 13 lines []

/-- The reply loop of queryPrinter (source lines 278-304): consume lines
until the completion marker, overwriting data.m666 and data.m665 from the
matching report lines and ignoring all other lines; `none` models
blocking forever when the lines run out first. -/
def queryLoop : List Line → AggData → Option AggData
  | [], _ => none
  | l :: rest, data =>
    match l with
    | .complete => some data
    | .m666r x y z => queryLoop rest { data with m666 := some { x := x, y := y, z := z } }
    | .m665r lv rv sv => queryLoop rest { data with m665 := some { l := lv, r := rv, s := sv } }
    | _ => queryLoop rest data

/-- queryPrinter (source lines 275-313): send M503, run the reply loop,
then log all six fields data.M666.X/Y/Z and data.M665.L/R/S; the first
dict lookup of a key that was never written raises KeyError (the log
statement reads the M666 keys before the M665 keys). -/
def queryPrinter (lines : List Line) (data : AggData) : Option (Except PyError AggData) :=
  match queryLoop lines data with
  | none => none
  | some d =>
    match d.m666, d.m665 with
    | none, _ => some (.error (.keyError "M666"))
    | some _, none => some (.error (.keyError "M665"))
    | some _, some _ => some (.ok d)

/-- The observable state of BasicHandler: the stored last line, the error
flag, and a count of lock.notify calls made so far. -/
structure HandlerState where
  last_line : Option String
  error : Bool
  notified : Nat
deriving DecidableEq, Repr

/-- BasicHandler.on_error (source lines 78-85). The source sets
self.error = True and then executes `self.last_line = line.strip()`, but
the method's parameter is named `error` and no variable `line` is in
scope, so evaluating the right-hand side raises NameError: last_line is
never assigned and the `with self.lock: self.lock.notify()` block is
never reached. The pair returns the state as left by the call together
with the exception it raises. -/
def on_error (s : HandlerState) : HandlerState × Option PyError :=
  let s1 := { s with error := true }
  (s1, some (.nameError "line"))

/-- Build the datapoint dict appended in fixDeltaCalibration lines
336-349 from the 8 results of one probing run; only evaluated under the
guard results.length = 8, so the getD defaults are never reached. -/
def mkDatapoint (r : List ℚ) : Datapoint :=
  { z1 := r.getD 0 0
  , z2 := r.getD 1 0
  , x1 := r.getD 2 0
  , x2 := r.getD 3 0
  , y1 := r.getD 4 0
  , y2 := r.getD 5 0
  , c1 := r.getD 6 0
  , c2 := r.getD 7 0 }

/-- The probing loop of fixDeltaCalibration (source lines 319-354), with
the result of each run_autolevel invocation abstracted as one list of
extracted floats. Each iteration rebinds `data` to a fresh dict and
appends the new datapoint to that fresh dict, so the dict built by an
earlier iteration is discarded; an iteration whose result count is not
8 raises immediately without running the remaining iterations. The Nat
counts the probe invocations actually made. -/
def probeLoop : List (List ℚ) → AggData → Except PyError AggData × Nat
  | [], data => (.ok data, 0)
  | r :: rest, _ =>
    if r.length = 8 then
      let d := { freshAggData with datapoints := [mkDatapoint r] }
      let p := probeLoop rest d
      (p.1, p.2 + 1)
    else
      (.error (.exception "invalid result count from bed autolevel routine"), 1)

/-- The tail of a calibration pass after a successful probing loop
(fixDeltaCalibration lines 356-362): computeVariance on the surviving
data, queryPrinter over the reply lines qlines, then runAdjustments
whose Bool lands in status.converged. First component as in
fixDeltaCalPass; second component is the trace of commands this tail
sends. -/
def afterProbe (d : AggData) (qlines : List Line) (st : Status) :
    Option (Except PyError (AggData × Status)) × List Cmd :=
  let cv := computeVariance d st
  match queryPrinter qlines cv.1 with
  | none => (none, [Cmd.query])
  | some (.error e) => (some (.error e), [Cmd.query])
  | some (.ok d2) =>
    match runAdjustments d2 with
    | .error e => (some (.error e), [Cmd.query])
    | .ok bc => (some (.ok (d2, { cv.2 with converged := bc.1 })), Cmd.query :: bc.2)

/-- One calibration pass, fixDeltaCalibration (source lines 316-364):
home, three probing runs (their extracted results given as p0 p1 p2),
then the afterProbe tail on the surviving data. The first component is
the pass outcome (`none` when a reply loop blocks forever, otherwise the
raised exception or the final data and status); the second is the trace
of commands sent. -/
def fixDeltaCalPass (p0 p1 p2 : List ℚ) (qlines : List Line) (st : Status) :
    Option (Except PyError (AggData × Status)) × List Cmd :=
  let pr := probeLoop [p0, p1, p2] freshAggData
  let probeCmds : List Cmd := Cmd.home :: List.replicate pr.2 Cmd.autolevel
  match pr.1 with
  | .error e => (some (.error e), probeCmds)
  | .ok d =>
    let ap := afterProbe d qlines st
    (ap.1, probeCmds ++ ap.2)

/-- The datapoints held by a successful pass outcome, or the empty list
for a blocked or aborted pass. -/
def passResultDatapoints (r : Option (Except PyError (AggData × Status))) : List Datapoint :=
  match r with
  | some (.ok p) => p.1.datapoints
  | _ => []

/-- Concrete pass data for the C2 witness: high_point deviates from
z_avg by 1 mm and the machine parameters have been queried. -/
def exDataC2 : AggData :=
  { freshAggData with
    high_point := 1
    z_avg := 0
    x_avg := 1
    y_avg := 1
    c_offset := 2
    m666 := some { x := 5, y := 6, z := 7 }
    m665 := some { l := 120, r := 617 / 10, s := 1 } }

/-- Concrete pass data for the C5 witness: axis deviations within
tolerance, center offset 0.1 mm out of tolerance. -/
def exDataC5 : AggData :=
  { freshAggData with
    high_point := 1
    z_avg := 1
    x_avg := 1
    y_avg := 1
    c_offset := 1 / 10
    m666 := some { x := 5, y := 6, z := 7 }
    m665 := some { l := 120, r := 60, s := 1 } }

/-- Concrete first-pass data for the C4 witness: the x readings have the
greatest mean. -/
def exDpC4 : Datapoint :=
  { z1 := 1, z2 := 1, x1 := 3, x2 := 3, y1 := 2, y2 := 2, c1 := 2, c2 := 2 }

/-- First probing run of the C8 counterexample. -/
def exProbeA : List ℚ := [1, 1, 1, 1, 1, 1, 1, 1]

/-- Second probing run of the C8 counterexample. -/
def exProbeB : List ℚ := [2, 2, 2, 2, 2, 2, 2, 2]

/-- Third probing run of the C8 counterexample. -/
def exProbeC : List ℚ := [3, 3, 3, 3, 3, 3, 3, 3]

/-- Query reply lines used by the C8 counterexample pass. -/
def exQLines : List Line := [Line.m666r 0 0 0, Line.m665r 120 61 1, Line.complete]

/-- C3: For every RawSample of 8 probe readings held as the single
datapoint of a pass, computeVariance sets each axis mean to the
arithmetic average of that axis's two readings and each axis variance to
the population variance of those two readings: the sum of squared
deviations from the mean divided by 2, the sample count, not by
count minus 1. -/
theorem computeVariance_singleton_stats (dp : Datapoint) (st : Status) :
    ((computeVariance { freshAggData with datapoints := [dp] } st).1).z_avg = (dp.z1 + dp.z2) / 2 ∧
    ((computeVariance { freshAggData with datapoints := [dp] } st).1).x_avg = (dp.x1 + dp.x2) / 2 ∧
    ((computeVariance { freshAggData with datapoints := [dp] } st).1).y_avg = (dp.y1 + dp.y2) / 2 ∧
    ((computeVariance { freshAggData with datapoints := [dp] } st).1).c_avg = (dp.c1 + dp.c2) / 2 ∧
    ((computeVariance { freshAggData with datapoints := [dp] } st).1).z_var =
      ((dp.z1 - (dp.z1 + dp.z2) / 2) ^ 2 + (dp.z2 - (dp.z1 + dp.z2) / 2) ^ 2) / 2 ∧
    ((computeVariance { freshAggData with datapoints := [dp] } st).1).x_var =
      ((dp.x1 - (dp.x1 + dp.x2) / 2) ^ 2 + (dp.x2 - (dp.x1 + dp.x2) / 2) ^ 2) / 2 ∧
    ((computeVariance { freshAggData with datapoints := [dp] } st).1).y_var =
      ((dp.y1 - (dp.y1 + dp.y2) / 2) ^ 2 + (dp.y2 - (dp.y1 + dp.y2) / 2) ^ 2) / 2 ∧
    ((computeVariance { freshAggData with datapoints := [dp] } st).1).c_var =
      ((dp.c1 - (dp.c1 + dp.c2) / 2) ^ 2 + (dp.c2 - (dp.c1 + dp.c2) / 2) ^ 2) / 2 := by
  refine ⟨?_, ?_, ?_, ?_, ?_, ?_, ?_, ?_⟩ <;>
    simp [computeVariance, sumZ, sumX, sumY, sumC, sumSqZ, sumSqX, sumSqY, sumSqC,
      freshAggData]

/-- C1: runAdjustments returns converged = true exactly when all three
absolute axis deviations from high_point and the absolute center offset
are simultaneously at most TOLERANCE_MM, on the same pass's data. -/
theorem runAdjustments_converged_iff (d : AggData) :
    (∃ cs, runAdjustments d = Except.ok (true, cs)) ↔
      (|d.high_point - d.z_avg| ≤ TOLERANCE_MM ∧ |d.high_point - d.x_avg| ≤ TOLERANCE_MM ∧
       |d.high_point - d.y_avg| ≤ TOLERANCE_MM ∧ |d.c_offset| ≤ TOLERANCE_MM) := by
  constructor
  · rintro ⟨cs, hcs⟩
    simp only [runAdjustments, gt_iff_lt, Bool.or_eq_true, decide_eq_true_eq] at hcs
    split_ifs at hcs with h1 h2
    · rcases hm : d.m666 with _ | t <;> simp [adjustOffsets, hm] at hcs
    · rcases hm : d.m665 with _ | m <;> simp [adjustDeltaRadius, hm] at hcs
    · push_neg at h1 h2
      exact ⟨h1.1.1, h1.1.2, h1.2, h2⟩
  · rintro ⟨hz, hx, hy, hc⟩
    refine ⟨[], ?_⟩
    simp only [runAdjustments, gt_iff_lt, Bool.or_eq_true, decide_eq_true_eq]
    rw [if_neg, if_neg (not_lt.mpr hc)]
    push_neg
    exact ⟨⟨hz, hx⟩, hy⟩

/-- C2: when at least one axis deviation exceeds the tolerance and the
current trims have been queried, runAdjustments sends exactly the one
endstop-trim command and returns not-converged; the outcome is
independent of c_offset and of the queried M665 record, so the radius
correction is neither evaluated nor issued that pass; and no call of
runAdjustments ever sends more than one corrective command. -/
theorem runAdjustments_endstop_preempts (d : AggData) (t : Trim666)
    (hm : d.m666 = some t)
    (hdev : TOLERANCE_MM < |d.high_point - d.z_avg| ∨ TOLERANCE_MM < |d.high_point - d.x_avg| ∨
      TOLERANCE_MM < |d.high_point - d.y_avg|) :
    runAdjustments d =
      Except.ok (false, [Cmd.setTrim (t.z + (d.z_avg - d.high_point))
        (t.x + (d.x_avg - d.high_point)) (t.y + (d.y_avg - d.high_point))]) ∧
    (∀ c m, runAdjustments { d with c_offset := c, m665 := m } = runAdjustments d) ∧
    (∀ d2 b cs, runAdjustments d2 = Except.ok (b, cs) → cs.length ≤ 1) := by
  have hcond : (decide (|d.high_point - d.z_avg| > TOLERANCE_MM) ||
      decide (|d.high_point - d.x_avg| > TOLERANCE_MM) ||
      decide (|d.high_point - d.y_avg| > TOLERANCE_MM)) = true := by
    rcases hdev with h | h | h <;> simp [h]
  refine ⟨?_, ?_, ?_⟩
  · simp [runAdjustments, hcond, adjustOffsets, hm]
  · intro c m
    simp only [runAdjustments, adjustOffsets]
    simp [hcond, hm]
  · intro d2 b cs h
    simp only [runAdjustments] at h
    split_ifs at h
    · rcases h2 : adjustOffsets d2 with e | c <;> rw [h2] at h <;> simp at h
      simp [← h.2]
    · rcases h2 : adjustDeltaRadius d2 with e | c <;> rw [h2] at h <;> simp at h
      simp [← h.2]
    · simp at h
      simp [h.2]

/-- Witness for C2 at concrete pass data with an excessive z deviation. -/
theorem runAdjustments_endstop_preempts_witness :
    runAdjustments exDataC2 = Except.ok (false, [Cmd.setTrim 6 5 6]) :=
  (runAdjustments_endstop_preempts exDataC2 { x := 5, y := 6, z := 7 } rfl
      (Or.inl (by norm_num [exDataC2, freshAggData, TOLERANCE_MM]))).1.trans
    (by norm_num [exDataC2, freshAggData])

/-- C5: an issued corrective command carries exactly the specified value:
the endstop command sets each new trim to the current trim plus
axis mean minus high_point, for all three axes in one command; the
radius command sets the new radius to the current radius minus twice
c_offset. -/
theorem adjustment_command_values (d : AggData) (t : Trim666) (m : Rod665)
    (h6 : d.m666 = some t) (h5 : d.m665 = some m) :
    ((TOLERANCE_MM < |d.high_point - d.z_avg| ∨ TOLERANCE_MM < |d.high_point - d.x_avg| ∨
        TOLERANCE_MM < |d.high_point - d.y_avg|) →
      runAdjustments d =
        Except.ok (false, [Cmd.setTrim (t.z + (d.z_avg - d.high_point))
          (t.x + (d.x_avg - d.high_point)) (t.y + (d.y_avg - d.high_point))])) ∧
    ((|d.high_point - d.z_avg| ≤ TOLERANCE_MM ∧ |d.high_point - d.x_avg| ≤ TOLERANCE_MM ∧
        |d.high_point - d.y_avg| ≤ TOLERANCE_MM) → TOLERANCE_MM < |d.c_offset| →
      runAdjustments d = Except.ok (false, [Cmd.setRadius (m.r - 2 * d.c_offset)])) := by
  constructor
  · intro hdev
    exact (runAdjustments_endstop_preempts d t h6 hdev).1
  · rintro ⟨hz, hx, hy⟩ hc
    have hcond : (decide (|d.high_point - d.z_avg| > TOLERANCE_MM) ||
        decide (|d.high_point - d.x_avg| > TOLERANCE_MM) ||
        decide (|d.high_point - d.y_avg| > TOLERANCE_MM)) = false := by
      simp [not_lt.mpr hz, not_lt.mpr hx, not_lt.mpr hy]
    simp [runAdjustments, hcond, hc, adjustDeltaRadius, h5, mul_comm]

/-- Witness for C5 at concrete pass data needing a radius correction. -/
theorem adjustment_command_values_witness :
    runAdjustments exDataC5 = Except.ok (false, [Cmd.setRadius (299 / 5)]) :=
  ((adjustment_command_values exDataC5 { x := 5, y := 6, z := 7 } { l := 120, r := 60, s := 1 }
        rfl rfl).2
      (by norm_num [exDataC5, freshAggData, TOLERANCE_MM])
      (by norm_num [exDataC5, freshAggData, TOLERANCE_MM, abs_of_nonneg])).trans
    (by norm_num [exDataC5, freshAggData])

/-- The axis chosen by refSelect carries the greatest of the three axis
averages, and any axis tying with it has no better priority in the
Z-over-X-over-Y tie-break order of the strict comparisons. -/
theorem refSelect_max (d : AggData) :
    (∀ b, axisAvg d b ≤ axisAvg d (refSelect d)) ∧
    (∀ b, axisAvg d b = axisAvg d (refSelect d) → axisRank (refSelect d) ≤ axisRank b) := by
  simp only [refSelect, axisAvg, gt_iff_lt]
  by_cases hx : d.z_avg < d.x_avg
  · simp only [if_pos hx]
    by_cases hy : d.x_avg < d.y_avg
    · simp only [if_pos hy]
      constructor
      · intro b
        cases b <;> simp [axisAvg] <;> linarith
      · intro b
        cases b <;> simp [axisAvg, axisRank] <;> intro h <;> linarith
    · simp only [if_neg hy]
      constructor
      · intro b
        cases b <;> simp [axisAvg] <;> linarith
      · intro b
        cases b <;> simp [axisAvg, axisRank] <;> intro h <;> linarith
  · simp only [if_neg hx]
    by_cases hy : d.z_avg < d.y_avg
    · simp only [if_pos hy]
      constructor
      · intro b
        cases b <;> simp [axisAvg] <;> linarith
      · intro b
        cases b <;> simp [axisAvg, axisRank] <;> intro h <;> linarith
    · simp only [if_neg hy]
      constructor
      · intro b
        cases b <;> simp [axisAvg] <;> linarith
      · intro b
        cases b <;> simp [axisAvg, axisRank]

/-- C4: the reference axis is chosen only on a call that finds
status.ref_axis unset, as the axis among Z, X, Y whose raw mean of the
current pass is greatest, ties resolved in favour of Z over X over Y by
the strict comparisons; every call that finds it already set leaves it
unchanged regardless of the current pass's means. -/
theorem computeVariance_ref_axis (d : AggData) (st : Status) :
    (∀ a, st.ref_axis = some a → ((computeVariance d st).2).ref_axis = some a) ∧
    (st.ref_axis = none →
      ((computeVariance d st).2).ref_axis = some (refSelect (computeVariance d st).1) ∧
      (∀ b, axisAvg (computeVariance d st).1 b ≤
        axisAvg (computeVariance d st).1 (refSelect (computeVariance d st).1)) ∧
      (∀ b, axisAvg (computeVariance d st).1 b =
          axisAvg (computeVariance d st).1 (refSelect (computeVariance d st).1) →
        axisRank (refSelect (computeVariance d st).1) ≤ axisRank b)) := by
  constructor
  · intro a ha
    simp [computeVariance, ha]
  · intro h
    refine ⟨?_, (refSelect_max (computeVariance d st).1).1,
      (refSelect_max (computeVariance d st).1).2⟩
    simp [computeVariance, h, refSelect, axisAvg]

/-- Witness for C4: on a first call with ref_axis unset, the recorded
reference axis is the refSelect choice of the computed averages. -/
theorem computeVariance_ref_axis_witness :
    freshStatus.ref_axis = none ∧
    ((computeVariance { freshAggData with datapoints := [exDpC4] } freshStatus).2).ref_axis =
      some (refSelect (computeVariance { freshAggData with datapoints := [exDpC4] } freshStatus).1) :=
  ⟨rfl, ((computeVariance_ref_axis { freshAggData with datapoints := [exDpC4] } freshStatus).2
    rfl).1⟩

/-- The reply loop of run_autolevel over a stream of bed coordinate
lines followed by the completion marker: with enough fuel it collects
the Z fields in order and consumes one line per wait, the marker
included as a line but not as data. -/
theorem autolevelLoop_bed (zs : List ℚ) (rest : List Line) (acc : List ℚ) (fuel : Nat)
    (h : zs.length < fuel) :
    autolevelLoop fuel (zs.map Line.bed ++ Line.complete :: rest) acc =
      some (acc ++ zs, zs.length + 1) := by
  induction zs generalizing acc fuel with
  | nil =>
    cases fuel with
    | zero => omega
    | succ k => simp [autolevelLoop]
  | cons z zs ih =>
    cases fuel with
    | zero => omega
    | succ k =>
      have hk : zs.length < k := by
        simpa using h
      simp [autolevelLoop, ih (acc ++ [z]) k hk]

/-- The reply loop of run_autolevel returns after consuming at most
fuel-many lines whenever the stream holds at least fuel-many lines. -/
theorem autolevelLoop_bounded (fuel : Nat) :
    ∀ (lines : List Line) (acc : List ℚ), fuel ≤ lines.length →
      ∃ r n, autolevelLoop fuel lines acc = some (r, n) ∧ n ≤ fuel := by
  induction fuel with
  | zero =>
    intro lines acc _
    exact ⟨acc, 0, rfl, Nat.le_refl 0⟩
  | succ k ih =>
    intro lines acc hlen
    cases lines with
    | nil => simp at hlen
    | cons l rest =>
      have hr : k ≤ rest.length := by
        simpa using hlen
      cases l with
      | complete => exact ⟨acc, 1, rfl, by omega⟩
      | bed z =>
        obtain ⟨r, n, hrn, hn⟩ := ih rest (acc ++ [z]) hr
        exact ⟨r, n + 1, by simp [autolevelLoop, hrn], by omega⟩
      | m666r x y z =>
        obtain ⟨r, n, hrn, hn⟩ := ih rest acc hr
        exact ⟨r, n + 1, by simp [autolevelLoop, hrn], by omega⟩
      | m665r lv rv sv =>
        obtain ⟨r, n, hrn, hn⟩ := ih rest acc hr
        exact ⟨r, n + 1, by simp [autolevelLoop, hrn], by omega⟩
      | other =>
        obtain ⟨r, n, hrn, hn⟩ := ih rest acc hr
        exact ⟨r, n + 1, by simp [autolevelLoop, hrn], by omega⟩

/-- C6: on a reply stream whose first 8 lines are bed coordinate reports
and whose 9th line is the completion marker, run_autolevel returns
exactly the 8 Z fields in arrival order after consuming 9 lines, so the
marker is consumed as the stop signal and never as data; and on any
stream of at least 13 lines it returns whatever was collected after
consuming at most 13 lines. -/
theorem run_autolevel_parses (zs : List ℚ) (rest : List Line) (h8 : zs.length = 8) :
    run_autolevel (zs.map Line.bed ++ Line.complete :: rest) = some (zs, 9) ∧
    (∀ lines : List Line, 13 ≤ lines.length →
      ∃ r n, run_autolevel lines = some (r, n) ∧ n ≤ 13) := by
  constructor
  · have h := autolevelLoop_bed zs rest [] 13 (by omega)
    rw [run_autolevel, h, h8]
    simp
  · intro lines hlen
    exact autolevelLoop_bounded 13 lines [] hlen

/-- Witness for C6 at a concrete 13-line reply stream. -/
theorem run_autolevel_parses_witness :
    run_autolevel ([1, 2, 3, 4, 5, 6, 7, 8].map Line.bed ++
        Line.complete :: [Line.other, Line.other, Line.other, Line.other]) =
      some ([1, 2, 3, 4, 5, 6, 7, 8], 9) :=
  (run_autolevel_parses [1, 2, 3, 4, 5, 6, 7, 8]
    [Line.other, Line.other, Line.other, Line.other] (by decide)).1

/-- C7 (code bug): the source intends on_error to record the error flag,
store the line and notify one waiter without raising. The method body
reads the undefined name `line` (its parameter is `error`), so every
error event sets the flag and then raises NameError, reaching neither
the last_line assignment nor the notify. -/
theorem on_error_raises_nameError (s : HandlerState) :
    (on_error s).2 = some (PyError.nameError "line") ∧
    (on_error s).1.error = true ∧
    (on_error s).1.notified = s.notified ∧
    (on_error s).1.last_line = s.last_line :=
  ⟨rfl, rfl, rfl, rfl⟩

/-- runAdjustments never sends the probe command: its corrective
commands are a trim or a radius command only. -/
theorem runAdjustments_no_autolevel (d : AggData) (b : Bool) (cs : List Cmd)
    (h : runAdjustments d = Except.ok (b, cs)) : Cmd.autolevel ∉ cs := by
  simp only [runAdjustments] at h
  split_ifs at h
  · rcases h2 : adjustOffsets d with e | c <;> rw [h2] at h <;> simp at h
    rcases h3 : d.m666 with _ | t <;> simp [adjustOffsets, h3] at h2
    simp [← h.2, ← h2]
  · rcases h2 : adjustDeltaRadius d with e | c <;> rw [h2] at h <;> simp at h
    rcases h3 : d.m665 with _ | m <;> simp [adjustDeltaRadius, h3] at h2
    simp [← h.2, ← h2]
  · simp at h
    simp [h.2]

/-- The probing loop on three 8-reading runs makes three invocations and
keeps only the last run's datapoint, because each iteration rebuilds the
data dict from scratch. -/
theorem probeLoop_three_ok (p0 p1 p2 : List ℚ)
    (h0 : p0.length = 8) (h1 : p1.length = 8) (h2 : p2.length = 8) (d : AggData) :
    probeLoop [p0, p1, p2] d =
      (Except.ok { freshAggData with datapoints := [mkDatapoint p2] }, 3) := by
  simp [probeLoop, h0, h1, h2]

/-- The probing loop raises the invalid-result-count exception whenever
one of the three runs does not yield exactly 8 readings. -/
theorem probeLoop_three_error (p0 p1 p2 : List ℚ)
    (h : p0.length ≠ 8 ∨ p1.length ≠ 8 ∨ p2.length ≠ 8) (d : AggData) :
    (probeLoop [p0, p1, p2] d).1 =
      Except.error (PyError.exception "invalid result count from bed autolevel routine") := by
  by_cases h0 : p0.length = 8 <;> by_cases h1 : p1.length = 8 <;> by_cases h2 : p2.length = 8 <;>
    simp [probeLoop, h0, h1, h2] <;> tauto

/-- computeVariance never changes the datapoints list. -/
theorem computeVariance_datapoints (d : AggData) (st : Status) :
    ((computeVariance d st).1).datapoints = d.datapoints := by
  simp [computeVariance]

/-- The queryPrinter reply loop never changes the datapoints list. -/
theorem queryLoop_datapoints :
    ∀ (lines : List Line) (data d : AggData),
      queryLoop lines data = some d → d.datapoints = data.datapoints := by
  intro lines
  induction lines with
  | nil =>
    intro data d h
    simp [queryLoop] at h
  | cons l rest ih =>
    intro data d h
    cases l <;> simp only [queryLoop] at h
    case complete =>
      obtain rfl : data = d := by simpa using h
      rfl
    case bed z => exact ih _ _ h
    case m666r x y z =>
      have hstep := ih _ _ h
      simpa using hstep
    case m665r lv rv sv =>
      have hstep := ih _ _ h
      simpa using hstep
    case other => exact ih _ _ h

/-- A normal return of queryPrinter is exactly the state its reply loop
stopped in. -/
theorem queryPrinter_ok (lines : List Line) (data d2 : AggData)
    (h : queryPrinter lines data = some (Except.ok d2)) :
    queryLoop lines data = some d2 := by
  rcases hq : queryLoop lines data with _ | d
  · simp [queryPrinter, hq] at h
  · simp only [queryPrinter, hq] at h
    rcases h6 : d.m666 with _ | t <;> rcases h5 : d.m665 with _ | m <;>
      simp [h6, h5] at h
    rw [h]

/-- The afterProbe tail never sends the probe command. -/
theorem afterProbe_no_autolevel (d : AggData) (qlines : List Line) (st : Status) :
    Cmd.autolevel ∉ (afterProbe d qlines st).2 := by
  simp only [afterProbe]
  rcases hq : queryPrinter qlines (computeVariance d st).1 with _ | e | d2
  · simp
  · simp
  · simp
    rcases hr : runAdjustments d2 with e | bc
    · simp
    · have hnoal := runAdjustments_no_autolevel d2 bc.1 bc.2 (by rw [hr])
      simp [hnoal]

/-- A successful afterProbe tail returns an aggregate with the same
datapoints it was given: queryPrinter and computeVariance do not touch
them. -/
theorem afterProbe_ok_datapoints (d : AggData) (qlines : List Line) (st : Status)
    (dd : AggData) (stOut : Status)
    (h : (afterProbe d qlines st).1 = some (Except.ok (dd, stOut))) :
    dd.datapoints = d.datapoints := by
  simp only [afterProbe] at h
  rcases hq : queryPrinter qlines (computeVariance d st).1 with _ | e | d2 <;>
    rw [hq] at h <;> simp at h
  rcases hr : runAdjustments d2 with e | bc <;> rw [hr] at h <;> simp at h
  have hd2 : d2.datapoints = d.datapoints := by
    have hql := queryPrinter_ok qlines _ d2 hq
    rw [queryLoop_datapoints qlines _ d2 hql, computeVariance_datapoints]
  rw [← h.1]
  exact hd2

/-- C8 (amended): each calibration pass makes three probe invocations;
each run's datapoint is put into a freshly created aggregate, so the
aggregate that reaches the statistics and adjustment steps holds exactly
the last run's datapoint and the first two runs' samples are discarded. -/
theorem fixDeltaCalPass_keeps_last_probe (p0 p1 p2 : List ℚ) (qlines : List Line) (st : Status)
    (h0 : p0.length = 8) (h1 : p1.length = 8) (h2 : p2.length = 8) :
    ((fixDeltaCalPass p0 p1 p2 qlines st).2).count Cmd.autolevel = 3 ∧
    (probeLoop [p0, p1, p2] freshAggData).1 =
      Except.ok { freshAggData with datapoints := [mkDatapoint p2] } ∧
    (∀ d stOut, (fixDeltaCalPass p0 p1 p2 qlines st).1 = some (Except.ok (d, stOut)) →
      d.datapoints = [mkDatapoint p2]) := by
  have hpl := probeLoop_three_ok p0 p1 p2 h0 h1 h2 freshAggData
  refine ⟨?_, by rw [hpl], ?_⟩
  · have hnoal := afterProbe_no_autolevel { freshAggData with datapoints := [mkDatapoint p2] }
      qlines st
    simp [fixDeltaCalPass, hpl, List.count_cons, List.count_replicate, List.count_append,
      List.count_eq_zero.mpr hnoal]
  · intro d stOut h
    simp only [fixDeltaCalPass, hpl] at h
    have hap := afterProbe_ok_datapoints { freshAggData with datapoints := [mkDatapoint p2] }
      qlines st d stOut h
    rw [hap]

/-- C8 counterexample: a single pass on three valid probing runs sends
the probe command three times, not once, and the aggregate that drives
its statistics and adjustment holds the third run's sample, which
differs from the first run's sample. -/
theorem fixDeltaCalPass_single_probe_counterexample :
    ((fixDeltaCalPass exProbeA exProbeB exProbeC exQLines freshStatus).2).count Cmd.autolevel =
      3 ∧
    passResultDatapoints (fixDeltaCalPass exProbeA exProbeB exProbeC exQLines freshStatus).1 =
      [mkDatapoint exProbeC] ∧
    mkDatapoint exProbeC ≠ mkDatapoint exProbeA := by
  have hpl := probeLoop_three_ok exProbeA exProbeB exProbeC rfl rfl rfl freshAggData
  refine ⟨?_, ?_, ?_⟩
  · have hnoal := afterProbe_no_autolevel { freshAggData with datapoints := [mkDatapoint exProbeC] }
      exQLines freshStatus
    simp [fixDeltaCalPass, hpl, List.count_cons, List.count_replicate, List.count_append,
      List.count_eq_zero.mpr hnoal]
  · simp only [fixDeltaCalPass, hpl]
    norm_num [afterProbe, computeVariance, sumZ, sumX, sumY, sumC, sumSqZ, sumSqX, sumSqY,
      sumSqC, refSelect, axisAvg, freshAggData, freshStatus, mkDatapoint, exProbeC, exQLines,
      queryPrinter, queryLoop, runAdjustments, adjustOffsets, adjustDeltaRadius, TOLERANCE_MM,
      passResultDatapoints]
  · norm_num [mkDatapoint, exProbeA, exProbeC]

/-- Witness for C8 (amended) at a concrete pass of three valid runs. -/
theorem fixDeltaCalPass_keeps_last_probe_witness :
    ((fixDeltaCalPass exProbeB exProbeC exProbeA exQLines freshStatus).2).count Cmd.autolevel =
      3 :=
  (fixDeltaCalPass_keeps_last_probe exProbeB exProbeC exProbeA exQLines freshStatus
    rfl rfl rfl).1

/-- C9: a pass one of whose probing runs yields a result count other
than 8 aborts at once with the invalid-result-count exception: no
statistics are produced and neither the settings query nor a corrective
command is sent that pass. -/
theorem fixDeltaCalPass_aborts_on_bad_count (p0 p1 p2 : List ℚ) (qlines : List Line) (st : Status)
    (h : p0.length ≠ 8 ∨ p1.length ≠ 8 ∨ p2.length ≠ 8) :
    (fixDeltaCalPass p0 p1 p2 qlines st).1 =
      some (Except.error (PyError.exception "invalid result count from bed autolevel routine")) ∧
    Cmd.query ∉ (fixDeltaCalPass p0 p1 p2 qlines st).2 ∧
    (∀ z x y, Cmd.setTrim z x y ∉ (fixDeltaCalPass p0 p1 p2 qlines st).2) ∧
    (∀ r, Cmd.setRadius r ∉ (fixDeltaCalPass p0 p1 p2 qlines st).2) := by
  have hpl := probeLoop_three_error p0 p1 p2 h freshAggData
  refine ⟨?_, ?_, ?_, ?_⟩
  · simp [fixDeltaCalPass, hpl]
  · simp [fixDeltaCalPass, hpl, List.mem_replicate]
  · intro z x y
    simp [fixDeltaCalPass, hpl, List.mem_replicate]
  · intro r
    simp [fixDeltaCalPass, hpl, List.mem_replicate]

/-- Witness for C9 at a concrete pass whose first probing run yields no
readings at all. -/
theorem fixDeltaCalPass_aborts_on_bad_count_witness :
    (fixDeltaCalPass [] [] [] [] freshStatus).1 =
      some (Except.error (PyError.exception "invalid result count from bed autolevel routine")) ∧
    Cmd.query ∉ (fixDeltaCalPass [] [] [] [] freshStatus).2 :=
  ⟨(fixDeltaCalPass_aborts_on_bad_count [] [] [] [] freshStatus (Or.inl (by decide))).1,
   (fixDeltaCalPass_aborts_on_bad_count [] [] [] [] freshStatus (Or.inl (by decide))).2.1⟩

/-- The queryPrinter reply loop stops at the completion marker; a report
kind that never occurs among the consumed lines leaves the corresponding
field of the data unchanged. -/
theorem queryLoop_complete (pre : List Line) (rest : List Line) (data : AggData) :
    ∃ d, queryLoop (pre ++ Line.complete :: rest) data = some d ∧
      ((∀ x y z, Line.m666r x y z ∉ pre) → d.m666 = data.m666) ∧
      ((∀ lv rv sv, Line.m665r lv rv sv ∉ pre) → d.m665 = data.m665) := by
  induction pre generalizing data with
  | nil => exact ⟨data, rfl, fun _ => rfl, fun _ => rfl⟩
  | cons l pre ih =>
    cases l with
    | complete => exact ⟨data, rfl, fun _ => rfl, fun _ => rfl⟩
    | bed z =>
      obtain ⟨d, hd, h6, h5⟩ := ih data
      exact ⟨d, hd,
        fun h => h6 fun x y z hm => h x y z (List.mem_cons_of_mem _ hm),
        fun h => h5 fun lv rv sv hm => h lv rv sv (List.mem_cons_of_mem _ hm)⟩
    | other =>
      obtain ⟨d, hd, h6, h5⟩ := ih data
      exact ⟨d, hd,
        fun h => h6 fun x y z hm => h x y z (List.mem_cons_of_mem _ hm),
        fun h => h5 fun lv rv sv hm => h lv rv sv (List.mem_cons_of_mem _ hm)⟩
    | m666r x y z =>
      obtain ⟨d, hd, h6, h5⟩ := ih { data with m666 := some { x := x, y := y, z := z } }
      refine ⟨d, hd, ?_, ?_⟩
      · intro h
        exact absurd (List.mem_cons_self (Line.m666r x y z) pre) (by simpa using h x y z)
      · intro h
        exact h5 fun lv rv sv hm => h lv rv sv (List.mem_cons_of_mem _ hm)
    | m665r lv rv sv =>
      obtain ⟨d, hd, h6, h5⟩ := ih { data with m665 := some { l := lv, r := rv, s := sv } }
      refine ⟨d, hd, ?_, ?_⟩
      · intro h
        exact h6 fun x y z hm => h x y z (List.mem_cons_of_mem _ hm)
      · intro h
        exact absurd (List.mem_cons_self (Line.m665r lv rv sv) pre) (by simpa using h lv rv sv)

/-- C10: when queryPrinter reaches the completion marker without having
consumed both an M666 report and an M665 report, its summary logging
reads a dict key that was never written and the call raises KeyError
instead of returning a partially populated record. -/
theorem queryPrinter_missing_report (pre rest : List Line) (data : AggData)
    (hd6 : data.m666 = none) (hd5 : data.m665 = none)
    (h : (∀ x y z, Line.m666r x y z ∉ pre) ∨ (∀ lv rv sv, Line.m665r lv rv sv ∉ pre)) :
    queryPrinter (pre ++ Line.complete :: rest) data =
        some (Except.error (PyError.keyError "M666")) ∨
    queryPrinter (pre ++ Line.complete :: rest) data =
        some (Except.error (PyError.keyError "M665")) := by
  obtain ⟨d, hd, hp6, hp5⟩ := queryLoop_complete pre rest data
  rcases h with h | h
  · left
    have h6 : d.m666 = none := (hp6 h).trans hd6
    simp [queryPrinter, hd, h6]
  · have h5 : d.m665 = none := (hp5 h).trans hd5
    rcases h6 : d.m666 with _ | t
    · left
      simp [queryPrinter, hd, h6]
    · right
      simp [queryPrinter, hd, h6, h5]

/-- Witness for C10: an M665 report alone followed by the completion
marker makes queryPrinter raise a KeyError at its summary logging. -/
theorem queryPrinter_missing_report_witness :
    queryPrinter ([Line.m665r 120 61 1] ++ Line.complete :: []) freshAggData =
        some (Except.error (PyError.keyError "M666")) ∨
    queryPrinter ([Line.m665r 120 61 1] ++ Line.complete :: []) freshAggData =
        some (Except.error (PyError.keyError "M665")) :=
  queryPrinter_missing_report [Line.m665r 120 61 1] [] freshAggData rfl rfl
    (Or.inl (by intro x y z hm; simp at hm))

end DeltaLevel
